import Mathlib

/-!
Shallow embedding of the Redux counter/users tutorial repository.

The state types follow `src/types.ts`; the plain reducer follows
`src/reducers/counterReducer.js`; the toolkit counter slice follows
`src/counter/counter.ts` (value-level semantics of the Immer draft);
the users slice and its async thunk follow `src/users/users.ts`;
the root store follows `src/store.js` (combineReducers over the two
registered slices). JavaScript numbers used by the counter are modelled
as `Int`; `null` becomes `Option.none`.
-/

/-- Geo coordinates, from the `User` interface in `src/types.ts`. -/
structure Geo where
  lat : String
  lng : String
deriving DecidableEq, Repr

/-- Postal address, from the `User` interface in `src/types.ts`. -/
structure Address where
  street : String
  suite : String
  city : String
  zipcode : String
  geo : Geo
deriving DecidableEq, Repr

/-- Company record, from the `User` interface in `src/types.ts`. -/
structure Company where
  name : String
  catchPhrase : String
  bs : String
deriving DecidableEq, Repr

/-- A user record, from the `User` interface in `src/types.ts`. -/
structure User where
  id : Int
  name : String
  username : String
  email : String
  address : Address
  phone : String
  website : String
  company : Company
deriving DecidableEq, Repr

/-- The `status` union `'idle' | 'loading' | 'succeeded' | 'failed'`
of `UsersState` in `src/types.ts`. -/
inductive UsersStatus where
  | idle
  | loading
  | succeeded
  | failed
deriving DecidableEq, Repr

/-- The `UsersState` interface of `src/types.ts`. -/
structure UsersState where
  users : List User
  status : UsersStatus
  error : Option String
deriving DecidableEq, Repr

/-- The `CounterState` interface of `src/types.ts`. -/
structure CounterState where
  value : Int
deriving DecidableEq, Repr

/-- The `RootState` interface of `src/types.ts`: the aggregate tree held
by the store of `src/store.js`, keyed by the two registered slices. -/
structure RootState where
  counter : CounterState
  users : UsersState
deriving DecidableEq, Repr

/-- Payload carried by a dispatched action: `undefined` (no payload), a
number, a user list, or a string, covering every payload the action
creators and the thunk of this repository produce. -/
inductive Payload where
  | nil
  | num (n : Int)
  | usersList (us : List User)
  | str (s : String)
deriving DecidableEq, Repr

/-- A dispatched Redux action object: a `type` string plus payload. -/
structure JSAction where
  type : String
  payload : Payload
deriving DecidableEq, Repr

/-- Reads `action.payload` as a number, as the `INCREMENT_BY_AMOUNT`
branch of `counterReducer.js` does; only ever applied to actions built
by `incrementByAmount`, which always carry a number. -/
def Payload.asNum : Payload → Int
  | .num n => n
  | _ => 0

/-- Reads `action.payload` as a user list, as `onFulfiled` does; only
ever applied to `fulfilled` actions, which always carry a user list. -/
def Payload.asUsers : Payload → List User
  | .usersList us => us
  | _ => []

/-- Reads `action.payload as string`, as the `rejected` case does; only
ever applied to `rejected` actions, which always carry a string. -/
def Payload.asStr : Payload → Option String
  | .str s => some s
  | _ => none

namespace counterActions

/-- Action type constant from `src/actions/counterActions.js`. -/
def INCREMENT : String := "INCREMENT"

/-- Action type constant from `src/actions/counterActions.js`. -/
def DECREMENT : String := "DECREMENT"

/-- Action type constant from `src/actions/counterActions.js`. -/
def RESET : String := "RESET"

/-- Action type constant from `src/actions/counterActions.js`. -/
def INCREMENT_BY_AMOUNT : String := "INCREMENT_BY_AMOUNT"

/-- Action creator `increment` from `src/actions/counterActions.js`. -/
def increment : JSAction := ⟨INCREMENT, .nil⟩

/-- Action creator `decrement` from `src/actions/counterActions.js`. -/
def decrement : JSAction := ⟨DECREMENT, .nil⟩

/-- Action creator `reset` from `src/actions/counterActions.js`. -/
def reset : JSAction := ⟨RESET, .nil⟩

/-- Action creator `incrementByAmount` from
`src/actions/counterActions.js`. -/
def incrementByAmount (amount : Int) : JSAction :=
  ⟨INCREMENT_BY_AMOUNT, .num amount⟩

end counterActions

/-- The plain-Redux reducer of `src/reducers/counterReducer.js`:
a switch on `action.type` with a default returning `state`. -/
def counterReducer (state : CounterState) (action : JSAction) : CounterState :=
  if action.type = counterActions.INCREMENT then
    { state with value := state.value + 1 }
  else if action.type = counterActions.DECREMENT then
    { state with value := state.value - 1 }
  else if action.type = counterActions.RESET then
    { state with value := 0 }
  else if action.type = counterActions.INCREMENT_BY_AMOUNT then
    { state with value := state.value + action.payload.asNum }
  else
    state

namespace counter

/-- `initialState` of the counter slice in `src/counter/counter.ts`. -/
def initialState : CounterState := { value := 0 }

/-- Action type generated by `createSlice` for `counter.actions.increment`. -/
def incrementType : String := "counter/increment"

/-- Action type generated by `createSlice` for `counter.actions.decrement`. -/
def decrementType : String := "counter/decrement"

/-- Action type generated by `createSlice` for `counter.actions.reset`. -/
def resetType : String := "counter/reset"

/-- Action type generated by `createSlice` for
`counter.actions.incrementByAmount`. -/
def incrementByAmountType : String := "counter/incrementByAmount"

/-- Action creator `increment` exported from `src/counter/counter.ts`. -/
def increment : JSAction := ⟨incrementType, .nil⟩

/-- Action creator `decrement` exported from `src/counter/counter.ts`. -/
def decrement : JSAction := ⟨decrementType, .nil⟩

/-- Action creator `reset` exported from `src/counter/counter.ts`. -/
def reset : JSAction := ⟨resetType, .nil⟩

/-- Action creator `incrementByAmount` exported from
`src/counter/counter.ts`. -/
def incrementByAmount (amount : Int) : JSAction :=
  ⟨incrementByAmountType, .num amount⟩

/-- The reducer generated by `createSlice` in `src/counter/counter.ts`
(value-level semantics of the Immer case reducers; an unmatched action
type returns the state unchanged). -/
def reducer (state : CounterState) (action : JSAction) : CounterState :=
  if action.type = incrementType then
    { state with value := state.value + 1 }
  else if action.type = decrementType then
    { state with value := state.value - 1 }
  else if action.type = resetType then
    { state with value := 0 }
  else if action.type = incrementByAmountType then
    { state with value := state.value + action.payload.asNum }
  else
    state

end counter

/-- `counterSelector` exported from `src/counter/counter.ts`. -/
def counterSelector (state : RootState) : Int := state.counter.value

namespace users

/-- `initialState` of the users slice in `src/users/users.ts`. -/
def initialState : UsersState := { users := [], status := .idle, error := none }

/-- Action type of `fetchUsers.pending` for thunk prefix
`users/fetchUsers` in `src/users/users.ts`. -/
def pendingType : String := "users/fetchUsers/pending"

/-- Action type of `fetchUsers.fulfilled`. -/
def fulfilledType : String := "users/fetchUsers/fulfilled"

/-- Action type of `fetchUsers.rejected`. -/
def rejectedType : String := "users/fetchUsers/rejected"

/-- The `fetchUsers.pending` action dispatched when the thunk starts. -/
def fetchUsersPending : JSAction := ⟨pendingType, .nil⟩

/-- The `fetchUsers.fulfilled` action, carrying the fetched user list. -/
def fetchUsersFulfilled (us : List User) : JSAction :=
  ⟨fulfilledType, .usersList us⟩

/-- The `fetchUsers.rejected` action, carrying the `rejectWithValue`
string payload. -/
def fetchUsersRejected (msg : String) : JSAction :=
  ⟨rejectedType, .str msg⟩

/-- Case reducer `onPending` of `src/users/users.ts`: sets
`state.status = 'loading'` and touches nothing else. -/
def onPending (state : UsersState) : UsersState :=
  { state with status := .loading }

/-- Case reducer `onFulfiled` of `src/users/users.ts`: sets
`state.status = 'succeeded'` and `state.users = action.payload`. -/
def onFulfiled (state : UsersState) (action : JSAction) : UsersState :=
  { state with status := .succeeded, users := action.payload.asUsers }

/-- Case reducer of the `fetchUsers.rejected` case in
`src/users/users.ts`: sets `state.status = 'failed'` and
`state.error = action.payload as string`. -/
def onRejected (state : UsersState) (action : JSAction) : UsersState :=
  { state with status := .failed, error := action.payload.asStr }

/-- The reducer generated by `createSlice` in `src/users/users.ts`: the
three `extraReducers` cases keyed by the thunk action types; any other
action type returns the state unchanged. -/
def reducer (state : UsersState) (action : JSAction) : UsersState :=
  if action.type = pendingType then
    onPending state
  else if action.type = fulfilledType then
    onFulfiled state action
  else if action.type = rejectedType then
    onRejected state action
  else
    state

end users

/-- `selectAllUser` exported from `src/users/users.ts`. -/
def selectAllUser (state : RootState) : List User := state.users.users

/-- `selectUsersStatus` exported from `src/users/users.ts`. -/
def selectUsersStatus (state : RootState) : UsersStatus := state.users.status

/-- `selectUsersError` exported from `src/users/users.ts`. -/
def selectUsersError (state : RootState) : Option String := state.users.error

/-- The root reducer assembled by `configureStore` in `src/store.js`:
`combineReducers` runs every registered slice reducer on that slice's
sub-state and the same action, writing each result back under the same
key. -/
def rootReducer (tree : RootState) (action : JSAction) : RootState :=
  { counter := counter.reducer tree.counter action
    users := users.reducer tree.users action }

/-- The tree held by the store at creation: each slice reducer's
initial state under its key. -/
def storeInitialState : RootState :=
  { counter := counter.initialState, users := users.initialState }

/-- The tree after dispatching a sequence of actions, in order, through
the store of `src/store.js`. -/
def dispatchAll (tree : RootState) (actions : List JSAction) : RootState :=
  actions.foldl rootReducer tree

namespace users

/-- Outcome of parsing the response body: `response.json()` either
yields a user list or throws a parse error carrying a message. -/
inductive JsonBody where
  | parseError (msg : String)
  | jsonData (us : List User)
deriving DecidableEq, Repr

/-- Outcome of the `fetch` call inside `fetchUsers`: either the
transport fails (the promise rejects with an `Error` whose message is
`msg`), or a response arrives with its `ok` flag and a body. -/
inductive FetchResult where
  | fail (msg : String)
  | success (ok : Bool) (body : JsonBody)
deriving DecidableEq, Repr

/-- What the settled `fetchUsers` task dispatches: the `fulfilled`
intent with the user list, or the `rejected` intent with the
`rejectWithValue` message. -/
inductive ThunkOutcome where
  | fulfilled (us : List User)
  | rejectedWithValue (msg : String)
deriving DecidableEq, Repr

/-- The `try` block of `fetchUsers` in `src/users/users.ts`:
`Except.error m` models a thrown `Error` with message `m`.
The transport error propagates; a non-ok response throws
`new Error('Server Error!')`; otherwise the parsed body is returned. -/
def fetchUsersTry (r : FetchResult) : Except String (List User) :=
  match r with
  | .fail msg => .error msg
  | .success ok body =>
      if !ok then
        .error "Server Error!"
      else
        match body with
        | .parseError msg => .error msg
        | .jsonData us => .ok us

/-- The whole `fetchUsers` thunk payload creator: the `catch` clause
turns every thrown error into `rejectWithValue(error.message)`. The
outer `Except.error` would model an error escaping into the dispatch
path uncaught. -/
def fetchUsers (r : FetchResult) : Except String ThunkOutcome :=
  match fetchUsersTry r with
  | .ok us => .ok (.fulfilled us)
  | .error msg => .ok (.rejectedWithValue msg)

/-- The resolution intent the thunk middleware dispatches for a settled
outcome. -/
def ThunkOutcome.toAction : ThunkOutcome → JSAction
  | .fulfilled us => fetchUsersFulfilled us
  | .rejectedWithValue msg => fetchUsersRejected msg

end users

/-- The four counter intents of the spec, as dispatched by the UI. -/
inductive CounterIntent where
  | increment
  | decrement
  | reset
  | incrementByAmount (amount : Int)
deriving DecidableEq, Repr

/-- The action object the plain action creators of
`src/actions/counterActions.js` build for each counter intent. -/
def CounterIntent.toAction : CounterIntent → JSAction
  | .increment => counterActions.increment
  | .decrement => counterActions.decrement
  | .reset => counterActions.reset
  | .incrementByAmount amount => counterActions.incrementByAmount amount

/-- One step of the spec's running sum: +1 per increment, -1 per
decrement, +amount per incrementByAmount, and reset zeroing the sum. -/
def intentStep (acc : Int) : CounterIntent → Int
  | .increment => acc + 1
  | .decrement => acc - 1
  | .reset => 0
  | .incrementByAmount amount => acc + amount

/-- The algebraic running sum over a sequence of counter intents, in
dispatch order, starting from `init`. -/
def sumWithReset (init : Int) (intents : List CounterIntent) : Int :=
  intents.foldl intentStep init

/-- The action object the toolkit slice's generated action creators in
`src/counter/counter.ts` build for each counter intent. -/
def CounterIntent.toSliceAction : CounterIntent → JSAction
  | .increment => counter.increment
  | .decrement => counter.decrement
  | .reset => counter.reset
  | .incrementByAmount amount => counter.incrementByAmount amount

/-- Whether `action.type` matches one of the four switch cases of
`src/reducers/counterReducer.js`. -/
def counterReducerRecognizes (a : JSAction) : Bool :=
  a.type = counterActions.INCREMENT || a.type = counterActions.DECREMENT ||
    a.type = counterActions.RESET || a.type = counterActions.INCREMENT_BY_AMOUNT

/-- Whether `action.type` matches one of the four case reducers the
toolkit slice of `src/counter/counter.ts` registers. -/
def counterSliceRecognizes (a : JSAction) : Bool :=
  a.type = counter.incrementType || a.type = counter.decrementType ||
    a.type = counter.resetType || a.type = counter.incrementByAmountType

/-- Whether `action.type` matches one of the three `extraReducers`
cases the users slice of `src/users/users.ts` registers. -/
def usersSliceRecognizes (a : JSAction) : Bool :=
  a.type = users.pendingType || a.type = users.fulfilledType ||
    a.type = users.rejectedType

lemma counterReducer_intent (s : CounterState) (i : CounterIntent) :
    counterReducer s i.toAction = { s with value := intentStep s.value i } := by
  cases i <;>
    simp [CounterIntent.toAction, counterReducer, counterActions.increment,
      counterActions.decrement, counterActions.reset,
      counterActions.incrementByAmount, counterActions.INCREMENT,
      counterActions.DECREMENT, counterActions.RESET,
      counterActions.INCREMENT_BY_AMOUNT, Payload.asNum, intentStep]

lemma counterSlice_intent (s : CounterState) (i : CounterIntent) :
    counter.reducer s i.toSliceAction = { s with value := intentStep s.value i } := by
  cases i <;>
    simp [CounterIntent.toSliceAction, counter.reducer, counter.increment,
      counter.decrement, counter.reset, counter.incrementByAmount,
      counter.incrementType, counter.decrementType, counter.resetType,
      counter.incrementByAmountType, Payload.asNum, intentStep]

lemma counterReducer_unrecognized (s : CounterState) (a : JSAction)
    (h : counterReducerRecognizes a = false) : counterReducer s a = s := by
  simp only [counterReducerRecognizes, Bool.or_eq_false_iff,
    decide_eq_false_iff_not] at h
  obtain ⟨⟨⟨h1, h2⟩, h3⟩, h4⟩ := h
  simp [counterReducer, h1, h2, h3, h4]

lemma counterSlice_unrecognized (s : CounterState) (a : JSAction)
    (h : counterSliceRecognizes a = false) : counter.reducer s a = s := by
  simp only [counterSliceRecognizes, Bool.or_eq_false_iff,
    decide_eq_false_iff_not] at h
  obtain ⟨⟨⟨h1, h2⟩, h3⟩, h4⟩ := h
  simp [counter.reducer, h1, h2, h3, h4]

lemma usersSlice_unrecognized (s : UsersState) (a : JSAction)
    (h : usersSliceRecognizes a = false) : users.reducer s a = s := by
  simp only [usersSliceRecognizes, Bool.or_eq_false_iff,
    decide_eq_false_iff_not] at h
  obtain ⟨⟨h1, h2⟩, h3⟩ := h
  simp [users.reducer, h1, h2, h3]

/-- C1: for every starting counter state and every sequence of counter
intents, the value produced by folding the counter reducer (both the
plain one and the toolkit slice's) over the dispatched actions equals
the algebraic running sum of +1 per increment, -1 per decrement and
+amount per incrementByAmount in dispatch order, with reset zeroing the
running sum where it occurs. -/
theorem counter_value_eq_sumWithReset (s : CounterState) (intents : List CounterIntent) :
    ((intents.map CounterIntent.toAction).foldl counterReducer s).value
        = sumWithReset s.value intents ∧
      ((intents.map CounterIntent.toSliceAction).foldl counter.reducer s).value
        = sumWithReset s.value intents := by
  induction intents generalizing s with
  | nil => exact ⟨rfl, rfl⟩
  | cons i rest ih =>
      simp only [List.map_cons, List.foldl_cons, sumWithReset,
        counterReducer_intent, counterSlice_intent]
      exact ih { s with value := intentStep s.value i }

/-- C2 counterexample: from a users state whose error is `some "x"`,
the `fetchUsers.pending` intent does not clear the error field, so the
claim that pending always yields `error = none` is false. -/
theorem users_pending_error_not_cleared :
    (users.reducer ⟨[], .failed, some "x"⟩ users.fetchUsersPending).error ≠ none := by
  decide

/-- C2 (amended): applying the users reducer to `fetchUsers.pending`
yields a state whose status is `loading`, with both the users list and
the error field unchanged; in particular from `idle` (where the error
is `none`) the pending intent moves the status to `loading` with the
error still `none`. -/
theorem users_pending_sets_loading (s : UsersState) :
    users.reducer s users.fetchUsersPending = { s with status := .loading } := by
  rfl

/-- C3 counterexample: from a users state whose error is `some "x"`,
the `fetchUsers.fulfilled` intent does not clear the error field, so
the claim that fulfilled always yields `error = none` is false. -/
theorem users_fulfilled_error_not_cleared :
    (users.reducer ⟨[], .loading, some "x"⟩ (users.fetchUsersFulfilled [])).error ≠ none := by
  decide

/-- C3 (amended): applying the users reducer to
`fetchUsers.fulfilled(us)` yields a state with status `succeeded` and
the users list replaced by the payload `us`, with the error field
unchanged (not cleared). -/
theorem users_fulfilled_replaces_users (s : UsersState) (us : List User) :
    users.reducer s (users.fetchUsersFulfilled us)
      = { s with status := .succeeded, users := us } := by
  rfl

/-- C4: applying the users reducer to `fetchUsers.rejected(m)` yields a
state with status `failed` and error `m`, while the users list is
exactly the prior one — never overwritten with partial data. -/
theorem users_rejected_sets_failed_users_unchanged (s : UsersState) (m : String) :
    users.reducer s (users.fetchUsersRejected m)
        = { s with status := .failed, error := some m }
      ∧ (users.reducer s (users.fetchUsersRejected m)).users = s.users := by
  exact ⟨rfl, rfl⟩

/-- C5: the fetchUsers task never throws into the dispatch path: for
every fetch outcome it settles with `Except.ok` (never `.error`), and
the settled outcome is exactly `fulfilled(users)` on a parsed ok
response and otherwise `rejectedWithValue` carrying the message of the
failure cause (transport error message, `"Server Error!"` for a non-ok
response, or the parse error message). -/
theorem fetchUsers_never_throws (r : users.FetchResult) :
    ∃ o : users.ThunkOutcome, users.fetchUsers r = Except.ok o ∧
      match r with
      | .fail m => o = .rejectedWithValue m
      | .success false _ => o = .rejectedWithValue "Server Error!"
      | .success true (.parseError m) => o = .rejectedWithValue m
      | .success true (.jsonData us) => o = .fulfilled us := by
  rcases r with m | ⟨ok, body⟩
  · exact ⟨_, rfl, rfl⟩
  · cases ok <;> cases body <;> exact ⟨_, rfl, rfl⟩

/-- C6: for every slice reducer taken on its own, an action whose type
string that reducer does not recognize is a no-op for it — the plain
counter reducer, the toolkit counter slice reducer and the users slice
reducer each return their state unchanged whenever the action is
outside their own recognized set, whatever the other slices make of it;
and hence an action recognized by no registered slice leaves the whole
dispatched tree unchanged. -/
theorem unrecognized_intent_is_identity (c : CounterState) (u : UsersState)
    (t : RootState) (a : JSAction) :
    (counterReducerRecognizes a = false → counterReducer c a = c)
      ∧ (counterSliceRecognizes a = false → counter.reducer c a = c)
      ∧ (usersSliceRecognizes a = false → users.reducer u a = u)
      ∧ (counterSliceRecognizes a = false → usersSliceRecognizes a = false →
          rootReducer t a = t) := by
  refine ⟨counterReducer_unrecognized c a, counterSlice_unrecognized c a,
    usersSlice_unrecognized u a, fun h2 h3 => ?_⟩
  simp [rootReducer, counterSlice_unrecognized t.counter a h2,
    usersSlice_unrecognized t.users a h3]

/-- Witness for C6: the toolkit increment action "counter/increment" is
a no-op for the users slice and for the plain counter reducer, which do
not recognize it even though the counter slice does; and the action
type "app/unknown", recognized by no slice, is a no-op for the counter
slice and for the whole tree. -/
theorem unrecognized_intent_is_identity_witness :
    counterReducerRecognizes counter.increment = false
      ∧ usersSliceRecognizes counter.increment = false
      ∧ counterReducer ⟨5⟩ counter.increment = ⟨5⟩
      ∧ users.reducer ⟨[], .idle, none⟩ counter.increment = ⟨[], .idle, none⟩
      ∧ counterSliceRecognizes ⟨"app/unknown", .nil⟩ = false
      ∧ counter.reducer ⟨5⟩ ⟨"app/unknown", .nil⟩ = ⟨5⟩
      ∧ rootReducer ⟨⟨5⟩, ⟨[], .idle, none⟩⟩ ⟨"app/unknown", .nil⟩
          = ⟨⟨5⟩, ⟨[], .idle, none⟩⟩ :=
  ⟨by decide, by decide,
    (unrecognized_intent_is_identity ⟨5⟩ ⟨[], .idle, none⟩
      ⟨⟨5⟩, ⟨[], .idle, none⟩⟩ counter.increment).1 (by decide),
    (unrecognized_intent_is_identity ⟨5⟩ ⟨[], .idle, none⟩
      ⟨⟨5⟩, ⟨[], .idle, none⟩⟩ counter.increment).2.2.1 (by decide),
    by decide,
    (unrecognized_intent_is_identity ⟨5⟩ ⟨[], .idle, none⟩
      ⟨⟨5⟩, ⟨[], .idle, none⟩⟩ ⟨"app/unknown", .nil⟩).2.1 (by decide),
    (unrecognized_intent_is_identity ⟨5⟩ ⟨[], .idle, none⟩
      ⟨⟨5⟩, ⟨[], .idle, none⟩⟩ ⟨"app/unknown", .nil⟩).2.2.2
      (by decide) (by decide)⟩

/-- C7: after any single dispatch, the published tree is exactly each
registered slice reducer applied to that slice's sub-state of the same
prior tree and the same action — both components updated in the same
pass, with no torn reads. -/
theorem dispatch_updates_every_slice (tree : RootState) (past : List JSAction)
    (a : JSAction) :
    dispatchAll tree (past ++ [a])
      = { counter := counter.reducer (dispatchAll tree past).counter a,
          users := users.reducer (dispatchAll tree past).users a } := by
  simp [dispatchAll, List.foldl_append, rootReducer]

/-- C8: the initial tree at store creation is the counter at 0 and the
users slice empty, idle, with no error. -/
theorem store_initial_state_spec :
    storeInitialState
      = { counter := { value := 0 },
          users := { users := [], status := .idle, error := none } } := by
  rfl

/-- C9: every selector is a pure projection of the state tree:
`counterSelector` returns the counter value, `selectAllUser` the user
list, `selectUsersStatus` the status and `selectUsersError` the error
field; being pure functions of the tree they mutate nothing and
dispatch nothing. -/
theorem selectors_are_pure_projections (t : RootState) :
    counterSelector t = t.counter.value
      ∧ selectAllUser t = t.users.users
      ∧ selectUsersStatus t = t.users.status
      ∧ selectUsersError t = t.users.error :=
  ⟨rfl, rfl, rfl, rfl⟩

/-- C10: the plain-Redux counter reducer and the toolkit counter slice
reducer are equivalent: on each of the four corresponding intents they
produce the same next state, and each returns its state unchanged on
any action type it does not recognize. -/
theorem plain_and_slice_counter_equivalent (s : CounterState) (n : Int)
    (a b : JSAction)
    (ha : counterReducerRecognizes a = false)
    (hb : counterSliceRecognizes b = false) :
    counterReducer s counterActions.increment = counter.reducer s counter.increment
      ∧ counterReducer s counterActions.decrement = counter.reducer s counter.decrement
      ∧ counterReducer s counterActions.reset = counter.reducer s counter.reset
      ∧ counterReducer s (counterActions.incrementByAmount n)
          = counter.reducer s (counter.incrementByAmount n)
      ∧ counterReducer s a = s
      ∧ counter.reducer s b = s := by
  refine ⟨?_, ?_, ?_, ?_, counterReducer_unrecognized s a ha,
    counterSlice_unrecognized s b hb⟩
  · exact (counterReducer_intent s .increment).trans
      (counterSlice_intent s .increment).symm
  · exact (counterReducer_intent s .decrement).trans
      (counterSlice_intent s .decrement).symm
  · exact (counterReducer_intent s .reset).trans
      (counterSlice_intent s .reset).symm
  · exact (counterReducer_intent s (.incrementByAmount n)).trans
      (counterSlice_intent s (.incrementByAmount n)).symm

/-- Witness for C10 at the state 2, amount 5 and the unrecognized
action type "app/unknown" on both sides. -/
theorem plain_and_slice_counter_equivalent_witness :
    counterReducerRecognizes ⟨"app/unknown", .nil⟩ = false
      ∧ counterSliceRecognizes ⟨"app/unknown", .nil⟩ = false
      ∧ (counterReducer ⟨2⟩ counterActions.increment
            = counter.reducer ⟨2⟩ counter.increment
          ∧ counterReducer ⟨2⟩ counterActions.decrement
            = counter.reducer ⟨2⟩ counter.decrement
          ∧ counterReducer ⟨2⟩ counterActions.reset
            = counter.reducer ⟨2⟩ counter.reset
          ∧ counterReducer ⟨2⟩ (counterActions.incrementByAmount 5)
            = counter.reducer ⟨2⟩ (counter.incrementByAmount 5)
          ∧ counterReducer ⟨2⟩ ⟨"app/unknown", .nil⟩ = ⟨2⟩
          ∧ counter.reducer ⟨2⟩ ⟨"app/unknown", .nil⟩ = ⟨2⟩) :=
  ⟨by decide, by decide,
    plain_and_slice_counter_equivalent ⟨2⟩ 5 ⟨"app/unknown", .nil⟩
      ⟨"app/unknown", .nil⟩ (by decide) (by decide)⟩
